import Mathlib

/-!
Shallow embedding of `src/jeopardy/jeopardy.js` (a browser Jeopardy game) and
proofs of the specified properties.

Modelling conventions:
- JS numbers used for scores are modelled as `Int` (all arithmetic in the
  source is integral: start at 0, add 100, subtract 100 floored at 0).
- The `teamScores` object `{1: 0, 2: 0, 3: 0}` is modelled as a function
  `Nat → Int` together with the fixed key list `teams = [1, 2, 3]`
  (`Object.keys` enumerates integer-like keys in ascending order).
- A clue's `showing` field (`null` / `"question"` / `"answer"`) is modelled as
  `Option String` (`none` for `null`); in the source `!clue.showing` is true
  exactly when `showing` is `null`, since the only other values assigned are
  the truthy strings `"question"` and `"answer"`.
- lodash `_.sampleSize(l, n)` shuffles a copy of `l` (Fisher–Yates over the
  random source) and takes the first `n` elements; the random shuffle is
  modelled as an explicit function parameter, constrained in theorems to
  produce a permutation of its input.
- `Array.prototype.sort` with a comparator is stable (ECMAScript 2019+); it is
  modelled by a stable insertion sort with the source's descending-score
  comparator.
- Asynchronous event handlers run to completion (or to their next `await`)
  before the browser can repaint, so the observable UI states are those at
  task boundaries; each handler's synchronous segment is embedded as the
  composition of its DOM operations in source order.
-/

namespace Jeopardy

/-- `const CATEGORY_TOTAL = 6` (jeopardy.js line 3). -/
def CATEGORY_TOTAL : Nat := 6

/-- `const CLUES_PER_CATEGORY = 5` (jeopardy.js line 4). -/
def CLUES_PER_CATEGORY : Nat := 5

/-- A clue as delivered by the remote API; the source consumes only the
`question` and `answer` fields (jeopardy.js lines 38–42). -/
structure RawClue where
  question : String
  answer : String
deriving DecidableEq, Repr

/-- A clue as stored in game state: `{question, answer, showing}` with
`showing ∈ {null, "question", "answer"}` (jeopardy.js lines 38–42). -/
structure GameClue where
  question : String
  answer : String
  showing : Option String
deriving DecidableEq, Repr

/-- A fetched category: `{title, clues}` (jeopardy.js line 43). -/
structure Category where
  title : String
  clues : List GameClue
deriving DecidableEq, Repr

/-- One entry of the `GET /categories` response; only `id` is consumed
(jeopardy.js line 20). -/
structure CategoryListing where
  id : Nat
  title : String
deriving DecidableEq, Repr

/-- The `GET /category?id=..` response body: `{title, clues}`
(jeopardy.js lines 36–43). -/
structure CategoryResponse where
  title : String
  clues : List RawClue
deriving DecidableEq, Repr

/-- The only distinguished failure kind: a failed remote call
(spec §7; the source's catch-all `catch (error)`). -/
inductive NetworkError where
  | networkError : NetworkError
deriving DecidableEq, Repr

/-- Result of a fetch wrapper: the value handed to the caller (if any), the
console error lines produced, and the DOM writes performed. Both fetch
functions in the source write nothing to the DOM; errors go only to
`console.error`. -/
structure FetchResult (α : Type) where
  value : Option α
  consoleErrors : List String
  domWrites : List String
deriving Repr

/-- Model of lodash `_.sampleSize(l, n)`: shuffle a copy of `l` (the random
shuffle is the parameter `shuffle`, constrained in theorems to permute its
input) and take the first `n` elements. -/
def sampleSize {α : Type} (l : List α) (shuffle : List α → List α) (n : Nat) : List α :=
  (shuffle l).take n

/-- `fetchCategoryIds` (jeopardy.js lines 15–26): on success map the response
to its ids and return a random sample of `CATEGORY_TOTAL` of them; on failure
log to the console and return nothing (`undefined`, modelled as `none`). The
remote call's outcome is the `remote` parameter. -/
def fetchCategoryIds (remote : Except NetworkError (List CategoryListing))
    (shuffle : List Nat → List Nat) : FetchResult (List Nat) :=
  match remote with
  | Except.ok data =>
      { value := some (sampleSize (data.map fun c => c.id) shuffle CATEGORY_TOTAL)
        consoleErrors := []
        domWrites := [] }
  | Except.error _ =>
      { value := none
        consoleErrors := ["Failed to fetch category IDs:"]
        domWrites := [] }

/-- Formatting applied to each sampled clue (jeopardy.js lines 38–42):
keep `question` and `answer`, set `showing: null`. -/
def formatClue (c : RawClue) : GameClue :=
  { question := c.question, answer := c.answer, showing := none }

/-- `fetchCategoryData` (jeopardy.js lines 33–47): on success sample
`CLUES_PER_CATEGORY` clues, format them, and return `{title, clues}`; on
failure log to the console and return nothing. -/
def fetchCategoryData (remote : Except NetworkError CategoryResponse)
    (shuffle : List RawClue → List RawClue) : FetchResult Category :=
  match remote with
  | Except.ok data =>
      { value := some
          { title := data.title
            clues := (sampleSize data.clues shuffle CLUES_PER_CATEGORY).map formatClue }
        consoleErrors := []
        domWrites := [] }
  | Except.error _ =>
      { value := none
        consoleErrors := ["Failed to fetch category data:"]
        domWrites := [] }

/-- The fixed team identifiers: `Object.keys({1: .., 2: .., 3: ..})`
enumerates integer-like keys in ascending order (jeopardy.js line 8). -/
def teams : List Nat := [1, 2, 3]

/-- The initial score mapping `{1: 0, 2: 0, 3: 0}` (jeopardy.js lines 8
and 163). -/
def initScores : Nat → Int := fun _ => 0

/-- The mutable game state: `gameCategories` and `teamScores`
(jeopardy.js lines 7–8). -/
structure GameState where
  gameCategories : List Category
  teamScores : Nat → Int

/-- The score mutation inside `adjustScore` (jeopardy.js lines 113–117):
`"add"` adds 100, `"subtract"` subtracts 100 floored at 0 via
`Math.max(0, ..)`, any other `data-adjust` value changes nothing. -/
def applyAdjust (scores : Nat → Int) (team : Nat) (adjust : String) : Nat → Int :=
  if adjust = "add" then
    Function.update scores team (scores team + 100)
  else if adjust = "subtract" then
    Function.update scores team (max 0 (scores team - 100))
  else
    scores

/-- A sequence of score-adjustment actions applied in order. -/
def runAdjusts (acts : List (Nat × String)) (scores : Nat → Int) : Nat → Int :=
  acts.foldl (fun s act => applyAdjust s act.1 act.2) scores

/-- Stable descending insertion: place `t` after every already-placed team
whose score is ≥ `t`'s score. This is the stable order required of
`Array.prototype.sort` with comparator `(a, b) => teamScores[b] - teamScores[a]`
(jeopardy.js lines 129–130 and 186). -/
def insertDesc (scores : Nat → Int) (t : Nat) : List Nat → List Nat
  | [] => [t]
  | u :: us => if scores t ≤ scores u then u :: insertDesc scores t us else t :: u :: us

/-- Stable sort of the team list by score descending (ties keep input order). -/
def sortDesc (scores : Nat → Int) (l : List Nat) : List Nat :=
  l.foldl (fun acc t => insertDesc scores t acc) []

/-- `Object.keys(teamScores).sort((a, b) => teamScores[b] - teamScores[a])`
(jeopardy.js lines 129–130; the identical expression recurs at line 186). -/
def sortedTeams (scores : Nat → Int) : List Nat :=
  sortDesc scores teams

/-- `updateLeaderboard` (jeopardy.js lines 128–138): the rendered ranking list
and the team named in the winning-team heading (`sortedTeams[0]`). -/
def updateLeaderboard (scores : Nat → Int) : List Nat × Option Nat :=
  (sortedTeams scores, (sortedTeams scores).head?)

/-- The final ranking computed by `completeGame` (jeopardy.js lines 186–191):
the same sort expression as `updateLeaderboard`, rendered into
`#final-rankings`. -/
def completeGameRankings (scores : Nat → Int) : List Nat :=
  sortDesc scores teams

/-- The full effect of one `adjustScore` click (jeopardy.js lines 108–121):
mutate the addressed team's score according to the button's `data-adjust`
value, then recompute and render the leaderboard (`updateLeaderboard` is
called unconditionally). Returns the new state and the rendered ranking. -/
def adjustScoreEvent (st : GameState) (team : Nat) (adjust : String) :
    GameState × List Nat :=
  let newScores := applyAdjust st.teamScores team adjust
  ({ st with teamScores := newScores }, sortedTeams newScores)

/-- `createGameBoard` initializes every clue cell with text `"?"`
(jeopardy.js line 75). -/
def initialCellText : String := "?"

/-- The grid of cell texts produced by `createGameBoard` (jeopardy.js
lines 54–82): `CLUES_PER_CATEGORY` rows, one `"?"` cell per category. -/
def createGameBoard (cats : List Category) : List (List String) :=
  (List.range CLUES_PER_CATEGORY).map fun _ => cats.map fun _ => initialCellText

/-- `handleCellClick` (jeopardy.js lines 88–101), acting on the addressed
clue and its cell's displayed text: if `showing` is `null` show the question;
else if `showing === "question"` show the answer; otherwise do nothing. -/
def handleCellClick (clue : GameClue) (cellText : String) : GameClue × String :=
  match clue.showing with
  | none => ({ clue with showing := some "question" }, clue.question)
  | some s =>
      if s = "question" then ({ clue with showing := some "answer" }, clue.answer)
      else (clue, cellText)

/-- One reveal trigger on a (clue, cell-text) pair. -/
def revealStep (p : GameClue × String) : GameClue × String :=
  handleCellClick p.1 p.2

/-- The cell's displayed text mirrors the clue's reveal state:
`null` (Hidden) shows `"?"`, `"question"` shows the question text,
`"answer"` shows the answer text. -/
def mirrorsState (p : GameClue × String) : Prop :=
  (p.1.showing = none → p.2 = initialCellText) ∧
  (p.1.showing = some "question" → p.2 = p.1.question) ∧
  (p.1.showing = some "answer" → p.2 = p.1.answer)

/-- The state change performed by `setupAndStartGame` (jeopardy.js
lines 161–178): team scores are reassigned to `{1: 0, 2: 0, 3: 0}` and
`gameCategories` is reassigned to `[]` and then filled with the freshly
fetched categories; nothing of the prior state survives. `fetched` is the
sequence of per-category fetch results, in the order the ids were drawn. -/
def setupAndStartGame (prior : GameState) (fetched : List Category) : GameState :=
  { gameCategories := fetched, teamScores := fun _ => 0 }

/-- The four primary UI panels (spec §4.7): `#start-screen`,
`#loading-screen`, `#game-board-screen`, `#rankings-div`. -/
structure Panels where
  startScreen : Bool
  loadingScreen : Bool
  gameBoardScreen : Bool
  rankingsDiv : Bool
deriving DecidableEq, Repr

/-- `$('#start-screen').show()` etc.: set one panel visible. -/
def showStart (p : Panels) : Panels := { p with startScreen := true }

/-- `$('#loading-screen').show()`. -/
def showLoadingScreen (p : Panels) : Panels := { p with loadingScreen := true }

/-- `$('#game-board-screen').show()`. -/
def showGameBoard (p : Panels) : Panels := { p with gameBoardScreen := true }

/-- `$('#rankings-div').show()`. -/
def showRankings (p : Panels) : Panels := { p with rankingsDiv := true }

/-- `$('#start-screen').hide()`. -/
def hideStart (p : Panels) : Panels := { p with startScreen := false }

/-- `$('#loading-screen').hide()`. -/
def hideLoadingScreen (p : Panels) : Panels := { p with loadingScreen := false }

/-- `$('#game-board-screen').hide()`. -/
def hideGameBoard (p : Panels) : Panels := { p with gameBoardScreen := false }

/-- `$('#rankings-div').hide()`. -/
def hideRankings (p : Panels) : Panels := { p with rankingsDiv := false }

/-- The `$(document).ready` handler's panel effect (jeopardy.js
lines 209–210): show the start screen, hide loading, board and rankings. -/
def onReady (p : Panels) : Panels :=
  hideRankings (hideGameBoard (hideLoadingScreen (showStart p)))

/-- Synchronous segment of the start-button click handler (jeopardy.js
lines 213–214): hide start, show loading (the `setTimeout` body runs
later). -/
def onStartClick (p : Panels) : Panels :=
  showLoadingScreen (hideStart p)

/-- Synchronous segment of the `setTimeout` callback up to the first `await`
inside `setupAndStartGame` (jeopardy.js lines 217–218 then 162):
hide the loading screen, then `showLoading()` shows it again. -/
def onTimerFire (p : Panels) : Panels :=
  showLoadingScreen (hideLoadingScreen p)

/-- Synchronous segment of `setupAndStartGame` after the last fetch resolves
(jeopardy.js lines 174–177): show the game board, then `removeLoading()`
hides the loading screen. -/
def onSetupDone (p : Panels) : Panels :=
  hideLoadingScreen (showGameBoard p)

/-- Panel effect of `completeGame` (jeopardy.js lines 185 and 193):
hide the board, show the final rankings. -/
def onCompleteClick (p : Panels) : Panels :=
  showRankings (hideGameBoard p)

/-- Synchronous segment of the restart-button click handler (jeopardy.js
lines 223–224): hide the board, show loading. -/
def onRestartClick (p : Panels) : Panels :=
  showLoadingScreen (hideGameBoard p)

/-- Panel effect of `returnToMain` (jeopardy.js lines 201–202):
hide the rankings, show the start screen. -/
def onBackClick (p : Panels) : Panels :=
  showStart (hideRankings p)

/-- Lifecycle phases of the screen controller (spec §4.7): `loadingWait` is
the fixed-delay wait before `setupAndStartGame` begins, `fetching` is the
span while its fetches are outstanding. -/
inductive Phase where
  | start
  | loadingWait
  | fetching
  | board
  | final
deriving DecidableEq, Repr

/-- The discrete UI events driving the lifecycle. -/
inductive UiEvent where
  | startBtn
  | timerFire
  | fetchDone
  | completeBtn
  | restartBtn
  | backBtn
deriving DecidableEq, Repr

/-- One lifecycle transition: which handlers can fire in which phase, and the
panel effect of each handler's synchronous segment. Events that have no
enabled handler in the current phase return `none`. -/
def lifecycleStep (ph : Phase) (ev : UiEvent) (p : Panels) : Option (Phase × Panels) :=
  match ph, ev with
  | Phase.start, UiEvent.startBtn => some (Phase.loadingWait, onStartClick p)
  | Phase.loadingWait, UiEvent.timerFire => some (Phase.fetching, onTimerFire p)
  | Phase.fetching, UiEvent.fetchDone => some (Phase.board, onSetupDone p)
  | Phase.board, UiEvent.completeBtn => some (Phase.final, onCompleteClick p)
  | Phase.board, UiEvent.restartBtn => some (Phase.loadingWait, onRestartClick p)
  | Phase.final, UiEvent.backBtn => some (Phase.start, onBackClick p)
  | _, _ => none

/-- Run a sequence of UI events; events with no enabled handler are ignored. -/
def runEvents (evs : List UiEvent) (s : Phase × Panels) : Phase × Panels :=
  evs.foldl (fun s ev => (lifecycleStep s.1 ev s.2).getD s) s

/-- The UI state right after the `$(document).ready` handler, from an
arbitrary initial panel state. -/
def initUi (p : Panels) : Phase × Panels :=
  (Phase.start, onReady p)

/-- The single panel expected to be visible in each phase. -/
def panelsOf : Phase → Panels
  | Phase.start => { startScreen := true, loadingScreen := false
                     gameBoardScreen := false, rankingsDiv := false }
  | Phase.loadingWait => { startScreen := false, loadingScreen := true
                           gameBoardScreen := false, rankingsDiv := false }
  | Phase.fetching => { startScreen := false, loadingScreen := true
                        gameBoardScreen := false, rankingsDiv := false }
  | Phase.board => { startScreen := false, loadingScreen := false
                     gameBoardScreen := true, rankingsDiv := false }
  | Phase.final => { startScreen := false, loadingScreen := false
                     gameBoardScreen := false, rankingsDiv := true }

/-- Number of primary panels currently visible. -/
def visibleCount (p : Panels) : Nat :=
  (if p.startScreen then 1 else 0) + (if p.loadingScreen then 1 else 0) +
    (if p.gameBoardScreen then 1 else 0) + (if p.rankingsDiv then 1 else 0)

/-- Scores used in the spec's leaderboard example: `{1: 300, 2: 300, 3: 100}`. -/
def exScores : Nat → Int :=
  fun t => if t = 1 then 300 else if t = 2 then 300 else if t = 3 then 100 else 0

/-- A concrete game state used to instantiate frame theorems. -/
def demoState : GameState :=
  { gameCategories := [], teamScores := initScores }

/-- A concrete dirty prior state: one revealed clue and nonzero scores. -/
def priorA : GameState :=
  { gameCategories :=
      [{ title := "Old"
         clues := [{ question := "q", answer := "a", showing := some "answer" }] }]
    teamScores := fun _ => 300 }

/-! ## Helper lemmas -/

lemma applyAdjust_add (scores : Nat → Int) (t : Nat) :
    applyAdjust scores t "add" = Function.update scores t (scores t + 100) := by
  rw [applyAdjust, if_pos rfl]

lemma applyAdjust_sub (scores : Nat → Int) (t : Nat) :
    applyAdjust scores t "subtract" = Function.update scores t (max 0 (scores t - 100)) := by
  rw [applyAdjust, if_neg (by decide), if_pos rfl]

lemma applyAdjust_other (scores : Nat → Int) (t : Nat) (adjust : String)
    (h1 : adjust ≠ "add") (h2 : adjust ≠ "subtract") :
    applyAdjust scores t adjust = scores := by
  rw [applyAdjust, if_neg h1, if_neg h2]

lemma applyAdjust_nonneg (scores : Nat → Int) (h : ∀ u, 0 ≤ scores u)
    (team : Nat) (adj : String) : ∀ u, 0 ≤ applyAdjust scores team adj u := by
  intro u
  unfold applyAdjust
  split_ifs
  · rcases eq_or_ne u team with rfl | hne
    · rw [Function.update_same]
      have := h u
      omega
    · rw [Function.update_noteq hne]
      exact h u
  · rcases eq_or_ne u team with rfl | hne
    · rw [Function.update_same]
      exact le_max_left 0 _
    · rw [Function.update_noteq hne]
      exact h u
  · exact h u

lemma runAdjusts_nonneg (acts : List (Nat × String)) (scores : Nat → Int)
    (h : ∀ u, 0 ≤ scores u) : ∀ u, 0 ≤ runAdjusts acts scores u := by
  induction acts generalizing scores with
  | nil => exact h
  | cons act rest ih =>
      simp only [runAdjusts, List.foldl_cons] at ih ⊢
      exact ih _ (applyAdjust_nonneg scores h act.1 act.2)

lemma mirrorsState_revealStep (p : GameClue × String) (h : mirrorsState p) :
    mirrorsState (revealStep p) := by
  obtain ⟨⟨q, a, sh⟩, text⟩ := p
  cases sh with
  | none =>
      exact ⟨fun hs => by simp [revealStep, handleCellClick] at hs, fun _ => rfl,
        fun hs => by simp [revealStep, handleCellClick] at hs⟩
  | some s =>
      by_cases hq : s = "question"
      · subst hq
        exact ⟨fun hs => by simp [revealStep, handleCellClick] at hs,
          fun hs => by simp [revealStep, handleCellClick] at hs,
          fun _ => rfl⟩
      · have hstep :
            revealStep ({ question := q, answer := a, showing := some s }, text) =
              ({ question := q, answer := a, showing := some s }, text) := by
          simp [revealStep, handleCellClick, hq]
        rw [hstep]
        exact h

lemma revealStep_answer_fixed (q a : String) :
    revealStep ({ question := q, answer := a, showing := some "answer" }, a) =
      ({ question := q, answer := a, showing := some "answer" }, a) := rfl

/-! ## Claim theorems -/

/-- C1: starting Hidden with cell text "?", the first reveal trigger moves the
clue to Question and displays its question text, the second moves it to Answer
and displays its answer text, and every later trigger leaves state and text
unchanged; throughout, the displayed text mirrors the reveal state. -/
theorem C1_clue_reveal (q a : String) (n : Nat) (hn : 2 ≤ n) :
    revealStep^[1] ({ question := q, answer := a, showing := none }, initialCellText) =
      ({ question := q, answer := a, showing := some "question" }, q) ∧
    revealStep^[n] ({ question := q, answer := a, showing := none }, initialCellText) =
      ({ question := q, answer := a, showing := some "answer" }, a) ∧
    ∀ m : Nat,
      mirrorsState
        (revealStep^[m] ({ question := q, answer := a, showing := none }, initialCellText)) := by
  have h2 : revealStep^[2] ({ question := q, answer := a, showing := none }, initialCellText) =
      ({ question := q, answer := a, showing := some "answer" }, a) := rfl
  refine ⟨rfl, ?_, ?_⟩
  · obtain ⟨k, rfl⟩ : ∃ k, n = k + 2 := ⟨n - 2, by omega⟩
    rw [Function.iterate_add_apply, h2]
    exact Function.iterate_fixed (revealStep_answer_fixed q a) k
  · intro m
    induction m with
    | zero =>
        refine ⟨fun _ => rfl, ?_, ?_⟩ <;> intro hs <;> cases hs
    | succ k ih =>
        rw [Function.iterate_succ_apply']
        exact mirrorsState_revealStep _ ih

theorem C1_clue_reveal_witness :
    2 ≤ 3 ∧
    (revealStep^[1] ({ question := "Q", answer := "A", showing := none }, initialCellText) =
      ({ question := "Q", answer := "A", showing := some "question" }, "Q") ∧
    revealStep^[3] ({ question := "Q", answer := "A", showing := none }, initialCellText) =
      ({ question := "Q", answer := "A", showing := some "answer" }, "A") ∧
    ∀ m : Nat,
      mirrorsState
        (revealStep^[m] ({ question := "Q", answer := "A", showing := none }, initialCellText))) :=
  ⟨by decide, C1_clue_reveal "Q" "A" 3 (by decide)⟩

/-- C2: every team's score starts at 0 and stays a non-negative integer under
every sequence of score-adjustment actions; one decrease from 0 yields 0. -/
theorem C2_score_nonneg (acts : List (Nat × String)) (t : Nat) (ht : t ∈ teams) :
    initScores t = 0 ∧
    0 ≤ runAdjusts acts initScores t ∧
    applyAdjust initScores t "subtract" t = 0 := by
  refine ⟨rfl, runAdjusts_nonneg acts initScores (fun _ => le_refl 0) t, ?_⟩
  rw [applyAdjust_sub, Function.update_same]
  simp only [initScores]
  decide

theorem C2_score_nonneg_witness :
    1 ∈ teams ∧
    (initScores 1 = 0 ∧
     0 ≤ runAdjusts [(1, "subtract"), (1, "subtract"), (2, "add")] initScores 1 ∧
     applyAdjust initScores 1 "subtract" 1 = 0) :=
  ⟨by decide, C2_score_nonneg [(1, "subtract"), (1, "subtract"), (2, "add")] 1 (by decide)⟩

/-- C4 counterexample: no value passed through the score-adjustment handler
realizes the contract `score := max(0, score + delta)` for `delta = 50`; the
handler accepts only a direction string, and every direction yields 100, 0 or
no change on a zero score, never 50. -/
theorem C4_counterexample :
    ¬ ∀ d : Int, ∃ adjust : String, ∀ scores : Nat → Int, 0 ≤ scores 1 →
        applyAdjust scores 1 adjust 1 = max 0 (scores 1 + d) := by
  intro h
  obtain ⟨adjust, hadj⟩ := h 50
  have h0 := hadj initScores (le_refl 0)
  by_cases h1 : adjust = "add"
  · subst h1
    rw [applyAdjust_add, Function.update_same] at h0
    simp only [initScores] at h0
    omega
  · by_cases h2 : adjust = "subtract"
    · subst h2
      rw [applyAdjust_sub, Function.update_same] at h0
      simp only [initScores] at h0
      omega
    · rw [applyAdjust_other _ _ _ h1 h2] at h0
      simp only [initScores] at h0
      omega

/-- C4 amended: the score-adjustment operation accepts a direction, not an
arbitrary integer delta; the only realizable deltas are +100 ("add") and
−100 ("subtract"), and for those, from a non-negative score, the new score
equals max(0, previous score + delta); any other direction leaves the score
mapping unchanged. -/
theorem C4_adjust_contract (scores : Nat → Int) (t : Nat) (h : 0 ≤ scores t) :
    applyAdjust scores t "add" t = max 0 (scores t + 100) ∧
    applyAdjust scores t "subtract" t = max 0 (scores t - 100) ∧
    ∀ adjust : String, adjust ≠ "add" → adjust ≠ "subtract" →
      applyAdjust scores t adjust = scores := by
  refine ⟨?_, ?_, fun adjust h1 h2 => applyAdjust_other scores t adjust h1 h2⟩
  · rw [applyAdjust_add, Function.update_same]
    omega
  · rw [applyAdjust_sub, Function.update_same]

theorem C4_adjust_contract_witness :
    0 ≤ initScores 1 ∧
    (applyAdjust initScores 1 "add" 1 = max 0 (initScores 1 + 100) ∧
     applyAdjust initScores 1 "subtract" 1 = max 0 (initScores 1 - 100) ∧
     ∀ adjust : String, adjust ≠ "add" → adjust ≠ "subtract" →
       applyAdjust initScores 1 adjust = initScores) :=
  ⟨le_refl 0, C4_adjust_contract initScores 1 (le_refl 0)⟩

/-- C10: a score-adjustment event leaves the category list (hence every clue's
reveal state) unchanged, leaves every other team's score unchanged, changes no
score at all when the direction is neither "add" nor "subtract", and always
recomputes the leaderboard from the resulting scores. -/
theorem C10_adjust_frame (st : GameState) (team : Nat) (adjust : String) :
    (adjustScoreEvent st team adjust).1.gameCategories = st.gameCategories ∧
    (∀ u, u ≠ team →
      (adjustScoreEvent st team adjust).1.teamScores u = st.teamScores u) ∧
    (adjust ≠ "add" → adjust ≠ "subtract" →
      (adjustScoreEvent st team adjust).1.teamScores = st.teamScores) ∧
    (adjustScoreEvent st team adjust).2 =
      sortedTeams ((adjustScoreEvent st team adjust).1.teamScores) := by
  refine ⟨rfl, ?_, ?_, rfl⟩
  · intro u hu
    show applyAdjust st.teamScores team adjust u = st.teamScores u
    unfold applyAdjust
    split_ifs
    · exact Function.update_noteq hu _ _
    · exact Function.update_noteq hu _ _
    · rfl
  · intro h1 h2
    show applyAdjust st.teamScores team adjust = st.teamScores
    exact applyAdjust_other _ _ _ h1 h2

/-- C3: the leaderboard ranking sorts the team identifiers by score descending
with ties broken by ascending identifier (input order preserved); on the
example scores {1: 300, 2: 300, 3: 100} the ranking is [1, 2, 3] with team 1
the declared winner, and the final rankings at game completion use the same
ordering. -/
theorem C3_leaderboard_ranking (scores : Nat → Int) :
    (sortedTeams exScores = [1, 2, 3] ∧
     (updateLeaderboard exScores).2 = some 1 ∧
     completeGameRankings exScores = [1, 2, 3]) ∧
    (sortedTeams scores).Perm teams ∧
    (sortedTeams scores).Pairwise
      (fun a b => scores b < scores a ∨ (scores a = scores b ∧ a < b)) ∧
    completeGameRankings scores = sortedTeams scores := by
  refine ⟨⟨by decide, by decide, by decide⟩, ?_, ?_, rfl⟩
  · simp only [sortedTeams, sortDesc, teams, List.foldl_cons, List.foldl_nil, insertDesc]
    split_ifs <;> (simp only [insertDesc]; split_ifs <;> decide)
  · simp only [sortedTeams, sortDesc, teams, List.foldl_cons, List.foldl_nil, insertDesc]
    split_ifs <;>
      (simp only [insertDesc]; split_ifs <;>
        (simp [List.pairwise_cons, List.forall_mem_cons] <;> omega))

/-- C5: a successful `fetchCategoryIds` call returns exactly 6 category ids,
pairwise distinct, each drawn from the 100-candidate pool returned by the
remote service. The random draw is modelled by quantifying over the shuffle,
constrained to permute the pool. -/
theorem C5_fetchCategoryIds_sample (respData : List CategoryListing)
    (shuffle : List Nat → List Nat)
    (hlen : respData.length = 100)
    (hperm : (shuffle (respData.map fun c => c.id)).Perm (respData.map fun c => c.id))
    (hnodup : (respData.map fun c => c.id).Nodup) :
    ∃ out : List Nat,
      (fetchCategoryIds (Except.ok respData) shuffle).value = some out ∧
      out.length = CATEGORY_TOTAL ∧
      out.Nodup ∧
      ∀ x ∈ out, x ∈ respData.map fun c => c.id := by
  refine ⟨_, rfl, ?_, ?_, ?_⟩
  · simp [sampleSize, List.length_take, hperm.length_eq, List.length_map, hlen,
      CATEGORY_TOTAL]
  · exact List.Nodup.sublist (List.take_sublist _ _) (hperm.nodup_iff.mpr hnodup)
  · intro x hx
    exact hperm.subset (List.take_subset _ _ hx)

/-- A concrete 100-entry category pool for instantiating the C5 theorem. -/
def wPool : List CategoryListing :=
  (List.range 100).map fun i => { id := i, title := "" }

theorem C5_fetchCategoryIds_sample_witness :
    (wPool.length = 100 ∧
     (id (wPool.map fun c => c.id)).Perm (wPool.map fun c => c.id) ∧
     (wPool.map fun c => c.id).Nodup) ∧
    ∃ out : List Nat,
      (fetchCategoryIds (Except.ok wPool) id).value = some out ∧
      out.length = CATEGORY_TOTAL ∧
      out.Nodup ∧
      ∀ x ∈ out, x ∈ wPool.map fun c => c.id :=
  ⟨⟨by decide, List.Perm.refl _, by decide⟩,
   C5_fetchCategoryIds_sample wPool id (by decide) (List.Perm.refl _) (by decide)⟩

lemma formatClue_injective : Function.Injective formatClue := by
  intro x y hxy
  cases x
  cases y
  simpa [formatClue, GameClue.mk.injEq, RawClue.mk.injEq] using hxy

/-- C6: a successful `fetchCategoryData` call returns the category's title and
exactly 5 clues drawn without replacement (pairwise distinct) from the
category's full clue set, every one initialized Hidden (`showing = null`). -/
theorem C6_fetchCategoryData_sample (resp : CategoryResponse)
    (shuffle : List RawClue → List RawClue)
    (hlen : CLUES_PER_CATEGORY ≤ resp.clues.length)
    (hperm : (shuffle resp.clues).Perm resp.clues)
    (hnodup : resp.clues.Nodup) :
    ∃ cat : Category,
      (fetchCategoryData (Except.ok resp) shuffle).value = some cat ∧
      cat.title = resp.title ∧
      cat.clues.length = CLUES_PER_CATEGORY ∧
      cat.clues.Nodup ∧
      ∀ c ∈ cat.clues, c.showing = none ∧ ∃ raw ∈ resp.clues, c = formatClue raw := by
  refine ⟨_, rfl, rfl, ?_, ?_, ?_⟩
  · simp only [List.length_map, sampleSize, List.length_take, hperm.length_eq]
    simp only [CLUES_PER_CATEGORY] at hlen ⊢
    omega
  · exact List.Nodup.map formatClue_injective
      (List.Nodup.sublist (List.take_sublist _ _) (hperm.nodup_iff.mpr hnodup))
  · intro c hc
    obtain ⟨raw, hraw, rfl⟩ := List.mem_map.mp hc
    exact ⟨rfl, raw, hperm.subset (List.take_subset _ _ hraw), rfl⟩

/-- A concrete category response with 5 distinct clues for instantiating C6. -/
def wResp : CategoryResponse :=
  { title := "Science"
    clues := [{ question := "q1", answer := "a1" }, { question := "q2", answer := "a2" },
              { question := "q3", answer := "a3" }, { question := "q4", answer := "a4" },
              { question := "q5", answer := "a5" }] }

theorem C6_fetchCategoryData_sample_witness :
    (CLUES_PER_CATEGORY ≤ wResp.clues.length ∧
     (id wResp.clues).Perm wResp.clues ∧
     wResp.clues.Nodup) ∧
    ∃ cat : Category,
      (fetchCategoryData (Except.ok wResp) id).value = some cat ∧
      cat.title = wResp.title ∧
      cat.clues.length = CLUES_PER_CATEGORY ∧
      cat.clues.Nodup ∧
      ∀ c ∈ cat.clues, c.showing = none ∧ ∃ raw ∈ wResp.clues, c = formatClue raw :=
  ⟨⟨by decide, List.Perm.refl _, by decide⟩,
   C6_fetchCategoryData_sample wResp id (by decide) (List.Perm.refl _) (by decide)⟩

/-- C7: when the remote call fails, both fetch functions swallow the
`NetworkError` at the boundary: the caller receives `none` (no identifiers and
no category data — no exception escapes, as the functions are total into
`FetchResult`), the error is written to the console, and nothing is written to
the DOM, so no error is surfaced visually. -/
theorem C7_network_error_swallowed (shuffleIds : List Nat → List Nat)
    (shuffleClues : List RawClue → List RawClue) (e1 e2 : NetworkError) :
    fetchCategoryIds (Except.error e1) shuffleIds =
      { value := none
        consoleErrors := ["Failed to fetch category IDs:"]
        domWrites := [] } ∧
    fetchCategoryData (Except.error e2) shuffleClues =
      { value := none
        consoleErrors := ["Failed to fetch category data:"]
        domWrites := [] } :=
  ⟨rfl, rfl⟩

/-- C8: every game start or restart resets the game state: all team scores
become 0 and the category list is replaced wholesale by the freshly fetched
categories, with nothing of the prior state (categories, reveal states,
scores) carried over — the result does not depend on the prior state at all. -/
theorem C8_reset_on_start (prior1 prior2 : GameState) (fetched : List Category)
    (t : Nat) (ht : t ∈ teams) :
    (setupAndStartGame prior1 fetched).teamScores t = 0 ∧
    (setupAndStartGame prior1 fetched).gameCategories = fetched ∧
    setupAndStartGame prior1 fetched = setupAndStartGame prior2 fetched :=
  ⟨rfl, rfl, rfl⟩

theorem C8_reset_on_start_witness :
    2 ∈ teams ∧
    ((setupAndStartGame priorA []).teamScores 2 = 0 ∧
     (setupAndStartGame priorA []).gameCategories = [] ∧
     setupAndStartGame priorA [] = setupAndStartGame demoState []) :=
  ⟨by decide, C8_reset_on_start priorA demoState [] 2 (by decide)⟩

lemma lifecycle_inv (s : Phase × Panels) (ev : UiEvent) (h : s.2 = panelsOf s.1) :
    ((lifecycleStep s.1 ev s.2).getD s).2 =
      panelsOf ((lifecycleStep s.1 ev s.2).getD s).1 := by
  obtain ⟨ph, pn⟩ := s
  simp only at h
  subst h
  cases ph <;> cases ev <;> decide

lemma runEvents_inv (evs : List UiEvent) (s : Phase × Panels)
    (h : s.2 = panelsOf s.1) :
    (runEvents evs s).2 = panelsOf (runEvents evs s).1 := by
  induction evs generalizing s with
  | nil => exact h
  | cons ev rest ih =>
      simp only [runEvents, List.foldl_cons] at ih ⊢
      exact ih _ (lifecycle_inv s ev h)

lemma visibleCount_panelsOf (ph : Phase) : visibleCount (panelsOf ph) = 1 := by
  cases ph <;> decide

/-- C9: from page load on, after any sequence of lifecycle events
(start, timer, fetch completion, complete, restart, back), the panel state is
exactly the single panel of the current phase, so at every observable point
exactly one primary panel is visible and never two simultaneously. -/
theorem C9_single_panel (p : Panels) (evs : List UiEvent) :
    (runEvents evs (initUi p)).2 = panelsOf (runEvents evs (initUi p)).1 ∧
    visibleCount (runEvents evs (initUi p)).2 = 1 := by
  have h0 : (initUi p).2 = panelsOf (initUi p).1 := by
    cases p
    rfl
  have h := runEvents_inv evs _ h0
  refine ⟨h, ?_⟩
  rw [h]
  exact visibleCount_panelsOf _

theorem C10_adjust_frame_witness :
    (2 ≠ 1 ∧
      (adjustScoreEvent demoState 1 "add").1.teamScores 2 = demoState.teamScores 2) ∧
    ("flip" ≠ "add" ∧ "flip" ≠ "subtract" ∧
      (adjustScoreEvent demoState 1 "flip").1.teamScores = demoState.teamScores) :=
  ⟨⟨by decide, (C10_adjust_frame demoState 1 "add").2.1 2 (by decide)⟩,
   ⟨by decide, by decide,
    (C10_adjust_frame demoState 1 "flip").2.2.1 (by decide) (by decide)⟩⟩

end Jeopardy
